import Mathlib

/-!
Verification model of the media-downloader acquisition pipeline
(`src/controllers/media.controllers.ts`, with the duplicated revision kept
in `unnamed/part_000`).  The controller's pure fragments (format selection,
content-type based extension inference, error-message classification, path
construction) are embedded directly; the effectful orchestration in
`fetchMedia` is embedded as a pure function over an environment record that
fixes the outcome of every external effect (subprocess runs, directory
listings, the HTTP fetch), returning the computed response together with an
ordered trace of the external calls that were made.
-/

deriving instance DecidableEq for Except

namespace MediaDL

/-! ### String primitives

`includesStr` models JavaScript `String.prototype.includes` (substring
test) and `startsWithStr` models `String.prototype.startsWith`, both via
explicit recursion on the character list. -/

def isPrefixL : List Char → List Char → Bool
  | [], _ => true
  | _ :: _, [] => false
  | a :: as, b :: bs => a == b && isPrefixL as bs

def hasSubstrL (pat : List Char) : List Char → Bool
  | [] => isPrefixL pat []
  | c :: cs => isPrefixL pat (c :: cs) || hasSubstrL pat cs

def includesStr (s pat : String) : Bool :=
  hasSubstrL pat.data s.data

def startsWithStr (s pat : String) : Bool :=
  isPrefixL pat.data s.data

/-- ASCII lowercasing, modelling `String.prototype.toLowerCase` on the
ASCII header and extension strings the controller inspects. -/
def toLowerStr (s : String) : String :=
  String.mk (s.data.map Char.toLower)

/-! ### Path primitives

Node's `path.join`, `path.dirname` and `path.extname`, restricted to the
forms the controller uses (components without separators, POSIX paths). -/

def pathJoin (a b : String) : String := a ++ "/" ++ b

def dirnameL (cs : List Char) : List Char :=
  (((cs.reverse.dropWhile (fun c => c != '/')).drop 1).reverse)

def pathDirname (s : String) : String :=
  String.mk (dirnameL s.data)

def basenameL (cs : List Char) : List Char :=
  (cs.reverse.takeWhile (fun c => c != '/')).reverse

def pathExtname (s : String) : String :=
  let b := basenameL s.data
  let afterDot := b.reverse.takeWhile (fun c => c != '.')
  if afterDot.length == b.length then ""
  else if afterDot.length + 1 == b.length && b.head? == some '.' then ""
  else String.mk ('.' :: afterDot.reverse)

/-! ### Directory layout (`fetchMedia` lines 438/466, `downloadWithYtDlp`
lines 156-161, `downloadImagesFromPost` call at line 479)

`mediaDir = path.join(process.cwd(), "public", "media")` is the public
artifact directory.  The extraction path receives
`outputPath = path.join(mediaDir, "temp")` and stages its files under
`path.dirname(outputPath)`; the image path receives `mediaDir` itself. -/

def mediaDirOf (cwd : String) : String :=
  pathJoin (pathJoin cwd "public") "media"

def ytDlpScratchDirOf (cwd : String) : String :=
  pathDirname (pathJoin (mediaDirOf cwd) "temp")

def imagesScratchDirOf (cwd : String) : String :=
  mediaDirOf cwd

/-! ### Error model -/

structure AppError where
  message : String
  statusCode : Nat
deriving DecidableEq, Repr

/-- Classification done by the catch block of `getMediaInfo`
(`media.controllers.ts` lines 118-138): a raw failure whose message
mentions "No video could be found" becomes the fixed images message with
status 400; anything else is wrapped as a generic extraction-info failure,
also with status 400. -/
def classifyInfoError (raw : String) : AppError :=
  if includesStr raw "No video could be found" then
    { message := "This post contains only images. Please use the image download endpoint or specify you want images."
      statusCode := 400 }
  else
    { message := "Failed to extract media info: " ++ raw ++ ". URL may be invalid or require authentication."
      statusCode := 400 }

/-- Classification done by the catch block of `downloadWithYtDlp`
(`media.controllers.ts` lines 254-269). -/
def classifyDownloadError (raw : String) : AppError :=
  if includesStr raw "No video could be found" then
    { message := "This post contains only images, not videos", statusCode := 400 }
  else
    { message := "Failed to download media: " ++ raw, statusCode := 502 }

/-- Classification done by the catch block of `getMediaInfo` in the
`part_000` revision (lines 175-203): identical shape, without the trailing
authentication hint. -/
def classifyInfoErrorP0 (raw : String) : AppError :=
  if includesStr raw "No video could be found" then
    { message := "This post contains only images. Please use the image download endpoint or specify you want images."
      statusCode := 400 }
  else
    { message := "Failed to extract media info: " ++ raw, statusCode := 400 }

/-- The stderr inspection inside the try block of the `part_000` revision's
`getMediaInfo` (lines 114-131): certain diagnostic substrings raise a plain
`Error` with a fixed message, which the same function's catch block then
wraps via `classifyInfoErrorP0`.  Returns the raised message, if any. -/
def infoStderrCheckP0 (stderr : String) : Option String :=
  if includesStr stderr "Sign in to confirm" then
    some "YouTube bot detection triggered. Try adding cookies or wait before retrying."
  else if includesStr stderr "login required" then
    some "Login required for this platform. Use --cookies-from-browser option."
  else if includesStr stderr "rate-limit" then
    some "Rate limit reached. Please wait before trying again."
  else none

/-- The `AppError` produced by the `part_000` revision's `getMediaInfo` when
its stderr inspection fires: the raised message is re-caught and wrapped. -/
def getMediaInfoP0Failure (stderr : String) : Option AppError :=
  (infoStderrCheckP0 stderr).map classifyInfoErrorP0

/-- Classification done by the catch block of the `part_000` revision's
`downloadWithYtDlp` (lines 364-393), which additionally maps a stderr
containing "bot" to a 429 error. -/
def classifyDownloadErrorP0 (raw : String) (stderr : Option String) : AppError :=
  if includesStr raw "No video could be found" then
    { message := "This post contains only images, not videos", statusCode := 400 }
  else if (match stderr with | some s => includesStr s "bot" | none => false) then
    { message := "Bot detection triggered. Please wait a few minutes before retrying."
      statusCode := 429 }
  else
    { message := "Failed to download media: " ++ raw, statusCode := 502 }

/-! ### Format selection (`downloadWithYtDlp` lines 175-197) -/

def selectFormat (infoExt : Option String) (hasFFmpeg : Bool) : String :=
  if infoExt == some "jpg" || infoExt == some "png" || infoExt == some "webp" then
    "best"
  else if hasFFmpeg then
    "bestvideo[height<=1080][ext=mp4]+bestaudio[ext=m4a]/bestvideo[height<=1080]+bestaudio/best[height<=1080]/best"
  else
    "best[height<=1080]/best"

/-! ### Extension inference (`getExtensionFromContentType`, lines 408-423)

`none` models a `null` content-type; note that the source tests each
pattern with `String.prototype.includes` on the lowercased header. -/

def getExtensionFromContentType : Option String → String
  | none => ".bin"
  | some contentType =>
    let type := toLowerStr contentType
    if includesStr type "video/mp4" then ".mp4"
    else if includesStr type "video/quicktime" then ".mov"
    else if includesStr type "video/webm" then ".webm"
    else if includesStr type "video" then ".mp4"
    else if includesStr type "image/jpeg" then ".jpg"
    else if includesStr type "image/png" then ".png"
    else if includesStr type "image/gif" then ".gif"
    else if includesStr type "image/webp" then ".webp"
    else if includesStr type "image" then ".jpg"
    else ".bin"

/-- Media-type choice of the direct-fetch path (`fetchMedia` lines
601-603): `contentType && contentType.startsWith("video")`, on the
original-case header. -/
def directMediaType : Option String → String
  | none => "image"
  | some ct => if startsWithStr ct "video" then "video" else "image"

/-! ### Media-kind classification of the extraction path
(`fetchMedia` lines 541-546): `ext` carries the leading dot from
`path.extname`; the source tests `ext.slice(1).toLowerCase()` against a
fixed list. -/

def videoExts : List String := ["mp4", "mov", "webm", "avi", "mkv"]

def mediaTypeFromExtname (ext : String) : String :=
  if toLowerStr (ext.drop 1) ∈ videoExts then "video" else "image"

/-! ### Artifact location after the download invocation

`locateArtifact` is the step at `media.controllers.ts` lines 224-253:
`files.find(f => f.startsWith(tempFilename))`, failing when nothing
matches; the located file's size is obtained by `stat` but only logged.
`locateArtifactP0` is the same step in the `part_000` revision (lines
329-363), which additionally fails when the located file is empty.
Each directory entry is modelled as a (name, size) pair. -/

def locateArtifact (files : List (String × Nat)) (pfx : String) :
    Except String (String × Nat) :=
  match files.find? (fun f => startsWithStr f.1 pfx) with
  | none => Except.error "Downloaded file not found"
  | some f => Except.ok f

def locateArtifactP0 (files : List (String × Nat)) (pfx : String) :
    Except String (String × Nat) :=
  match files.find? (fun f => startsWithStr f.1 pfx) with
  | none => Except.error "Downloaded file not found in output directory"
  | some f =>
    if f.2 = 0 then Except.error "Downloaded file is empty (0 bytes)"
    else Except.ok f

/-! ### Orchestrator model (`fetchMedia`, lines 425-629)

The orchestrator is embedded as a pure function over a `Request` and an
`Env`.  The `Env` record fixes the outcome of every external effect the
request can perform; the function returns the computed `Except` outcome
together with the ordered trace of external calls that were actually made
(`Event` list).  Filesystem bookkeeping that cannot fail in the model
(mkdir, rename, stat, writeFile) is abstracted into the size fields. -/

inductive Event where
  | probeYtDlp
  | probeFFmpeg
  | execInfo
  | execDownload
  | execImages
  | httpFetch
deriving DecidableEq, Repr

structure Request where
  url : Option String
  useYtDlp : Bool := true
  downloadImages : Bool := false
deriving DecidableEq, Repr

structure Response where
  message : String
  mediaType : String
  size : Nat
  method : String
  ext : String
deriving DecidableEq, Repr

structure Env where
  /-- working directory of the process (`process.cwd()`). -/
  cwd : String
  /-- outcome of `checkYtDlpInstalled`. -/
  ytDlpInstalled : Bool
  /-- outcome of `checkFFmpegInstalled`. -/
  hasFFmpeg : Bool
  /-- raw failure message of the `--dump-json` info probe, when it fails. -/
  infoError : Option String
  /-- descriptor extension reported by a successful info probe
  (`none` models a descriptor without a usable `ext`). -/
  infoExt : Option String
  /-- raw failure message of the download invocation, when it fails. -/
  downloadError : Option String
  /-- directory listing seen after the download invocation. -/
  dlFiles : List String
  /-- the random scratch-name stem generated for the download. -/
  dlPfx : String
  /-- size reported by `stat` for the promoted extraction artifact. -/
  fileSize : Nat
  /-- raw failure message covering the image-extraction invocations,
  when both attempts fail. -/
  imagesError : Option String
  /-- directory listing seen after the image-extraction invocations. -/
  imageFiles : List String
  /-- the random scratch-name stem generated for the image extraction. -/
  imgPfx : String
  /-- size reported by `stat` for the promoted image artifact. -/
  firstImageSize : Nat
  /-- HTTP status and status text of the direct fetch, when it is not ok. -/
  fetchError : Option (Nat × String)
  /-- content-type header of a successful direct fetch. -/
  fetchContentType : Option String
  /-- body length of a successful direct fetch. -/
  fetchBodyLen : Nat
deriving DecidableEq, Repr

/-- JavaScript falsiness of the request's `url` field: absent or empty. -/
def urlFalsy : Option String → Bool
  | none => true
  | some s => s == ""

/-- Outcome and trace of `downloadWithYtDlp` (lines 144-270): info probe,
FFmpeg probe, download invocation, artifact location by scratch-name stem.
An `AppError` raised by `getMediaInfo` is re-wrapped by the download
routine's own catch block via `classifyDownloadError`. -/
def dlAttempt (env : Env) : Except AppError (String × Option String) × List Event :=
  match env.infoError with
  | some raw =>
    (Except.error (classifyDownloadError (classifyInfoError raw).message),
     [Event.execInfo])
  | none =>
    match env.downloadError with
    | some raw =>
      (Except.error (classifyDownloadError raw),
       [Event.execInfo, Event.probeFFmpeg, Event.execDownload])
    | none =>
      match env.dlFiles.find? (fun f => startsWithStr f env.dlPfx) with
      | none =>
        (Except.error (classifyDownloadError "Downloaded file not found"),
         [Event.execInfo, Event.probeFFmpeg, Event.execDownload])
      | some f =>
        (Except.ok (pathJoin (ytDlpScratchDirOf env.cwd) f, env.infoExt),
         [Event.execInfo, Event.probeFFmpeg, Event.execDownload])

/-- Outcome of `downloadImagesFromPost` (lines 275-359): when the
invocations fail, or no scratch file matches the generated stem, the
routine's catch block wraps the message with status 502; otherwise the
matching files are returned in listing order. -/
def imagesAttempt (env : Env) : Except AppError (List String) :=
  match env.imagesError with
  | some raw =>
    Except.error { message := "Failed to download images: " ++ raw, statusCode := 502 }
  | none =>
    let found := env.imageFiles.filter (fun f => startsWithStr f env.imgPfx)
    if found.isEmpty then
      Except.error { message := "Failed to download images: No images found in post"
                     statusCode := 502 }
    else Except.ok found

/-- The yt-dlp phase of `fetchMedia` (lines 452-582): probes the tool,
attempts the extraction download, on a failure whose message mentions
"only images" (or when images were requested) attempts the image
fallback; returns `some` response on success and `none` when the phase
falls through to the direct-fetch fallback.  Every failure inside the
phase is swallowed by the enclosing catch block. -/
def ytDlpPhase (req : Request) (env : Env) : Option Response × List Event :=
  if req.useYtDlp then
    if env.ytDlpInstalled then
      let dl := dlAttempt env
      match dl.1 with
      | Except.ok r =>
        let ext := pathExtname r.1
        (some { message := "Media downloaded successfully"
                mediaType := mediaTypeFromExtname ext
                size := env.fileSize
                method := "yt-dlp"
                ext := ext },
         Event.probeYtDlp :: dl.2)
      | Except.error e =>
        if includesStr e.message "only images" || req.downloadImages then
          match imagesAttempt env with
          | Except.ok found =>
            let ext := pathExtname (found.headD "")
            (some { message := "Image downloaded successfully"
                    mediaType := "image"
                    size := env.firstImageSize
                    method := "yt-dlp-image"
                    ext := ext },
             Event.probeYtDlp :: dl.2 ++ [Event.execImages])
          | Except.error _ =>
            (none, Event.probeYtDlp :: dl.2 ++ [Event.execImages])
        else (none, Event.probeYtDlp :: dl.2)
    else (none, [Event.probeYtDlp])
  else (none, [])

/-- The final wrapping done by the catch block of the direct-fetch
fallback (lines 619-628). -/
def finalWrap (msg : String) : AppError :=
  { message := "Failed to download media. Both yt-dlp and direct download methods failed. " ++ msg
    statusCode := 502 }

/-- The direct-fetch fallback (lines 584-628): plain HTTP GET, empty-body
check, extension from the content-type table, media type from the
content-type's case-sensitive "video" head. -/
def directPhase (fetchErr : Option (Nat × String)) (ct : Option String)
    (len : Nat) : Except AppError Response × List Event :=
  match fetchErr with
  | some st =>
    (Except.error (finalWrap ("Failed to download: " ++ toString st.1 ++ " " ++ st.2)),
     [Event.httpFetch])
  | none =>
    if len == 0 then
      (Except.error (finalWrap "Downloaded file is empty"), [Event.httpFetch])
    else
      (Except.ok { message := "Media downloaded successfully"
                   mediaType := directMediaType ct
                   size := len
                   method := "direct"
                   ext := getExtensionFromContentType ct },
       [Event.httpFetch])

/-- The whole `fetchMedia` handler: URL validation, yt-dlp phase, direct
fallback. -/
def fetchMedia (req : Request) (env : Env) : Except AppError Response × List Event :=
  if urlFalsy req.url then
    (Except.error { message := "URL is required", statusCode := 400 }, [])
  else
    let yt := ytDlpPhase req env
    match yt.1 with
    | some resp => (Except.ok resp, yt.2)
    | none =>
      let d := directPhase env.fetchError env.fetchContentType env.fetchBodyLen
      (d.1, yt.2 ++ d.2)

/-- A concrete all-success environment, used to instantiate the
hypothetical theorems at explicit inputs. -/
def baseEnv : Env :=
  { cwd := "/srv/app"
    ytDlpInstalled := true
    hasFFmpeg := true
    infoError := none
    infoExt := some "mp4"
    downloadError := none
    dlFiles := ["temp_aa.mp4"]
    dlPfx := "temp_aa"
    fileSize := 1024
    imagesError := none
    imageFiles := ["temp_bb_1.jpg"]
    imgPfx := "temp_bb"
    firstImageSize := 256
    fetchError := none
    fetchContentType := some "video/mp4"
    fetchBodyLen := 2048 }

/-! ## Helper lemmas -/

lemma isPrefixL_trans : ∀ {p q s : List Char},
    isPrefixL p q = true → isPrefixL q s = true → isPrefixL p s = true := by
  intro p
  induction p with
  | nil => intro q s _ _; rfl
  | cons a as ih =>
    intro q s hpq hqs
    cases q with
    | nil => cases hpq
    | cons b bs =>
      cases s with
      | nil => cases hqs
      | cons c cs =>
        unfold isPrefixL at hpq hqs ⊢
        have hab : a = b := by
          have := (Bool.and_eq_true _ _).mp hpq
          exact eq_of_beq this.1
        have hbc : b = c := by
          have := (Bool.and_eq_true _ _).mp hqs
          exact eq_of_beq this.1
        have h1 := ((Bool.and_eq_true _ _).mp hpq).2
        have h2 := ((Bool.and_eq_true _ _).mp hqs).2
        subst hab; subst hbc
        simp [ih h1 h2]

lemma hasSubstrL_mono {p q : List Char} (s : List Char)
    (hpq : isPrefixL p q = true) :
    hasSubstrL q s = true → hasSubstrL p s = true := by
  induction s with
  | nil =>
    intro h
    unfold hasSubstrL at h ⊢
    exact isPrefixL_trans hpq h
  | cons c cs ih =>
    intro h
    unfold hasSubstrL at h ⊢
    rcases (Bool.or_eq_true _ _).mp h with h1 | h2
    · exact (Bool.or_eq_true _ _).mpr (Or.inl (isPrefixL_trans hpq h1))
    · exact (Bool.or_eq_true _ _).mpr (Or.inr (ih h2))

/-- If a string does not contain `p`, it does not contain any pattern `q`
that extends `p` at the front. -/
lemma includesStr_false_mono (s p q : String)
    (hpq : isPrefixL p.data q.data = true)
    (h : includesStr s p = false) : includesStr s q = false := by
  cases hq : includesStr s q with
  | false => rfl
  | true =>
    have : includesStr s p = true := hasSubstrL_mono s.data hpq hq
    rw [this] at h; cases h

lemma directPhase_trace (a : Option (Nat × String)) (b : Option String)
    (c : Nat) : (directPhase a b c).2 = [Event.httpFetch] := by
  unfold directPhase
  cases a with
  | some st => rfl
  | none =>
    by_cases h : (c == 0) = true
    · simp [h]
    · simp [h]

lemma dlAttempt_trace_events (env : Env) :
    Event.httpFetch ∉ (dlAttempt env).2 ∧ Event.execImages ∉ (dlAttempt env).2 := by
  unfold dlAttempt
  cases env.infoError with
  | some raw => simp
  | none =>
    cases env.downloadError with
    | some raw => simp
    | none =>
      cases h : env.dlFiles.find? (fun f => startsWithStr f env.dlPfx) <;> simp

lemma dropWhile_until_slash (l r : List Char)
    (h : ∀ c ∈ l, (c != '/') = true) :
    (l ++ '/' :: r).dropWhile (fun c => c != '/') = '/' :: r := by
  induction l with
  | nil => simp [List.dropWhile]
  | cons a as ih =>
    have ha : (a != '/') = true := h a (by simp)
    simp only [List.cons_append, List.dropWhile, ha]
    exact ih (fun c hc => h c (by simp [hc]))

lemma dirnameL_append (d n : List Char) (h : ∀ c ∈ n, (c != '/') = true) :
    dirnameL (d ++ '/' :: n) = d := by
  unfold dirnameL
  have hrev : (d ++ '/' :: n).reverse = n.reverse ++ '/' :: d.reverse := by
    simp [List.reverse_append]
  rw [hrev, dropWhile_until_slash _ _ (fun c hc => h c (List.mem_reverse.mp hc))]
  simp

/-- The controller's scratch-directory computation collapses to the public
directory: `path.dirname(path.join(dir, name)) = dir` for any
separator-free `name`. -/
lemma pathDirname_join (d name : String)
    (h : ∀ c ∈ name.data, (c != '/') = true) :
    pathDirname (pathJoin d name) = d := by
  unfold pathDirname pathJoin
  have hdata : (d ++ "/" ++ name).data = d.data ++ '/' :: name.data := by
    simp [String.data_append]
  rw [hdata, dirnameL_append _ _ h]

/-! ## Claims -/

/-- Claim C6: format selection is a deterministic pure function of the
descriptor extension and the capability snapshot: a still-image extension
(jpg, png, webp) yields the generic "best" selector; a video with the
merge tool present yields the four-step preference chain capped at height
1080; a video without the merge tool yields best combined stream up to
1080p with fallback to unconstrained best. -/
theorem selectFormat_table (e : Option String) (c : Bool) :
    ((e = some "jpg" ∨ e = some "png" ∨ e = some "webp") →
      selectFormat e c = "best") ∧
    (¬(e = some "jpg" ∨ e = some "png" ∨ e = some "webp") → c = true →
      selectFormat e c =
        "bestvideo[height<=1080][ext=mp4]+bestaudio[ext=m4a]/bestvideo[height<=1080]+bestaudio/best[height<=1080]/best") ∧
    (¬(e = some "jpg" ∨ e = some "png" ∨ e = some "webp") → c = false →
      selectFormat e c = "best[height<=1080]/best") := by
  refine ⟨?_, ?_, ?_⟩
  · intro h
    unfold selectFormat
    rcases h with h | h | h <;> subst h <;> simp
  · intro h hc
    subst hc
    push_neg at h
    unfold selectFormat
    simp [h.1, h.2.1, h.2.2]
  · intro h hc
    subst hc
    push_neg at h
    unfold selectFormat
    simp [h.1, h.2.1, h.2.2]

/-- Witness for C6 at concrete inputs. -/
theorem selectFormat_table_w :
    selectFormat (some "jpg") true = "best" ∧
    selectFormat (some "mp4") true =
      "bestvideo[height<=1080][ext=mp4]+bestaudio[ext=m4a]/bestvideo[height<=1080]+bestaudio/best[height<=1080]/best" ∧
    selectFormat (some "mp4") false = "best[height<=1080]/best" :=
  ⟨(selectFormat_table (some "jpg") true).1 (Or.inl rfl),
   (selectFormat_table (some "mp4") true).2.1 (by simp) rfl,
   (selectFormat_table (some "mp4") false).2.2 (by simp) rfl⟩

/-- Claim C7: extension inference from content-type is a pure, total
function implementing the fixed table: video/mp4 to .mp4, video/quicktime
to .mov, video/webm to .webm, any other video type to .mp4, image/jpeg to
.jpg, image/png to .png, image/gif to .gif, image/webp to .webp, any other
image type to .jpg, and an unknown or absent content-type to .bin. -/
theorem getExtension_table :
    (getExtensionFromContentType none = ".bin") ∧
    (getExtensionFromContentType (some "video/mp4") = ".mp4") ∧
    (getExtensionFromContentType (some "video/quicktime") = ".mov") ∧
    (getExtensionFromContentType (some "video/webm") = ".webm") ∧
    (getExtensionFromContentType (some "image/jpeg") = ".jpg") ∧
    (getExtensionFromContentType (some "image/png") = ".png") ∧
    (getExtensionFromContentType (some "image/gif") = ".gif") ∧
    (getExtensionFromContentType (some "image/webp") = ".webp") ∧
    (∀ t, includesStr (toLowerStr t) "video" = true →
      includesStr (toLowerStr t) "video/mp4" = false →
      includesStr (toLowerStr t) "video/quicktime" = false →
      includesStr (toLowerStr t) "video/webm" = false →
      getExtensionFromContentType (some t) = ".mp4") ∧
    (∀ t, includesStr (toLowerStr t) "image" = true →
      includesStr (toLowerStr t) "video" = false →
      includesStr (toLowerStr t) "image/jpeg" = false →
      includesStr (toLowerStr t) "image/png" = false →
      includesStr (toLowerStr t) "image/gif" = false →
      includesStr (toLowerStr t) "image/webp" = false →
      getExtensionFromContentType (some t) = ".jpg") ∧
    (∀ t, includesStr (toLowerStr t) "video" = false →
      includesStr (toLowerStr t) "image" = false →
      getExtensionFromContentType (some t) = ".bin") := by
  refine ⟨by decide, by decide, by decide, by decide, by decide, by decide,
    by decide, by decide, ?_, ?_, ?_⟩
  · intro t hv h1 h2 h3
    unfold getExtensionFromContentType
    simp [hv, h1, h2, h3]
  · intro t hi hv h1 h2 h3 h4
    have hm1 : includesStr (toLowerStr t) "video/mp4" = false :=
      includesStr_false_mono _ "video" _ (by decide) hv
    have hm2 : includesStr (toLowerStr t) "video/quicktime" = false :=
      includesStr_false_mono _ "video" _ (by decide) hv
    have hm3 : includesStr (toLowerStr t) "video/webm" = false :=
      includesStr_false_mono _ "video" _ (by decide) hv
    unfold getExtensionFromContentType
    simp [hi, hv, hm1, hm2, hm3, h1, h2, h3, h4]
  · intro t hv hi
    have hm1 : includesStr (toLowerStr t) "video/mp4" = false :=
      includesStr_false_mono _ "video" _ (by decide) hv
    have hm2 : includesStr (toLowerStr t) "video/quicktime" = false :=
      includesStr_false_mono _ "video" _ (by decide) hv
    have hm3 : includesStr (toLowerStr t) "video/webm" = false :=
      includesStr_false_mono _ "video" _ (by decide) hv
    have hn1 : includesStr (toLowerStr t) "image/jpeg" = false :=
      includesStr_false_mono _ "image" _ (by decide) hi
    have hn2 : includesStr (toLowerStr t) "image/png" = false :=
      includesStr_false_mono _ "image" _ (by decide) hi
    have hn3 : includesStr (toLowerStr t) "image/gif" = false :=
      includesStr_false_mono _ "image" _ (by decide) hi
    have hn4 : includesStr (toLowerStr t) "image/webp" = false :=
      includesStr_false_mono _ "image" _ (by decide) hi
    unfold getExtensionFromContentType
    simp [hv, hi, hm1, hm2, hm3, hn1, hn2, hn3, hn4]

/-- Witness for C7: the quantified table rows evaluated at concrete
content-types. -/
theorem getExtension_table_w :
    getExtensionFromContentType (some "video/x-msvideo") = ".mp4" ∧
    getExtensionFromContentType (some "image/bmp") = ".jpg" ∧
    getExtensionFromContentType (some "application/json") = ".bin" :=
  ⟨(getExtension_table.2.2.2.2.2.2.2.2.1) "video/x-msvideo"
     (by decide) (by decide) (by decide) (by decide),
   (getExtension_table.2.2.2.2.2.2.2.2.2.1) "image/bmp"
     (by decide) (by decide) (by decide) (by decide) (by decide) (by decide),
   (getExtension_table.2.2.2.2.2.2.2.2.2.2) "application/json"
     (by decide) (by decide)⟩

/-- Claim C8: a request with a missing or empty URL fails with the
validation error (status 400, message "URL is required") and performs no
subprocess or network call: the effect trace is empty. -/
theorem missing_url_validation (req : Request) (env : Env)
    (h : urlFalsy req.url = true) :
    fetchMedia req env =
      (Except.error { message := "URL is required", statusCode := 400 }, []) := by
  unfold fetchMedia
  simp [h]

/-- Witness for C8 at an empty-string URL. -/
theorem missing_url_validation_w :
    fetchMedia { url := some "" } baseEnv =
      (Except.error { message := "URL is required", statusCode := 400 }, []) :=
  missing_url_validation _ _ rfl

/-- Counterexample for C2: at a concrete working directory, the directory
the extraction path stages into (the dirname of `mediaDir/temp`) and the
directory handed to the image extractor are both equal to the public
artifact directory, so a staged temp-prefixed file lies directly in the
public directory, not in a distinct scratch directory. -/
theorem staged_in_public_dir_cex :
    ytDlpScratchDirOf "/srv/app" = mediaDirOf "/srv/app" ∧
    imagesScratchDirOf "/srv/app" = mediaDirOf "/srv/app" ∧
    pathDirname (pathJoin (ytDlpScratchDirOf "/srv/app") "temp_0011223344556677.mp4")
      = "/srv/app/public/media" ∧
    mediaDirOf "/srv/app" = "/srv/app/public/media" := by decide

/-- Claim C2 amended: staged artifacts are written into the public
artifact directory itself — for every working directory, the extraction
path's staging directory (`path.dirname(path.join(mediaDir, "temp"))`) and
the image path's output directory both equal the public media directory,
and every separator-free staged filename placed there has the public
directory as its parent; staged files are distinguished from final ones
only by their `temp_` name stem. -/
theorem staged_artifact_dir (cwd name : String)
    (h : ∀ c ∈ name.data, (c != '/') = true) :
    ytDlpScratchDirOf cwd = mediaDirOf cwd ∧
    imagesScratchDirOf cwd = mediaDirOf cwd ∧
    pathDirname (pathJoin (ytDlpScratchDirOf cwd) name) = mediaDirOf cwd := by
  have h1 : ytDlpScratchDirOf cwd = mediaDirOf cwd :=
    pathDirname_join _ _ (by decide)
  refine ⟨h1, rfl, ?_⟩
  rw [h1, pathDirname_join _ _ h]

/-- Witness for the amended C2 at a concrete staged filename. -/
theorem staged_artifact_dir_w :
    ytDlpScratchDirOf "/opt/dl" = mediaDirOf "/opt/dl" ∧
    imagesScratchDirOf "/opt/dl" = mediaDirOf "/opt/dl" ∧
    pathDirname (pathJoin (ytDlpScratchDirOf "/opt/dl") "temp_00.mp4")
      = mediaDirOf "/opt/dl" :=
  staged_artifact_dir "/opt/dl" "temp_00.mp4" (by decide)

/-- Counterexample for C3: the canonical executor locates a scratch file
of size zero and returns it successfully — there is no `EmptyArtifact`
failure on a zero-length located file. -/
theorem locate_zero_length_cex :
    locateArtifact [("temp_ab12.mp4", 0)] "temp_ab12" =
      Except.ok ("temp_ab12.mp4", 0) := by decide

/-- Claim C3 amended: after the extraction tool runs, the executor
locates the first scratch file whose name starts with the generated
stem and fails when no such file exists; the zero-length check exists only
in the `part_000` revision (which fails with the empty-artifact error),
while the canonical controller returns the located file regardless of its
size. -/
theorem locate_artifact_spec (files : List (String × Nat)) (pfx : String) :
    (files.find? (fun f => startsWithStr f.1 pfx) = none →
      locateArtifact files pfx = Except.error "Downloaded file not found" ∧
      locateArtifactP0 files pfx =
        Except.error "Downloaded file not found in output directory") ∧
    (∀ f, files.find? (fun f => startsWithStr f.1 pfx) = some f →
      locateArtifact files pfx = Except.ok f ∧
      locateArtifactP0 files pfx =
        (if f.2 = 0 then Except.error "Downloaded file is empty (0 bytes)"
         else Except.ok f)) := by
  constructor
  · intro h
    unfold locateArtifact locateArtifactP0
    rw [h]
    exact ⟨rfl, rfl⟩
  · intro f h
    unfold locateArtifact locateArtifactP0
    rw [h]
    exact ⟨rfl, rfl⟩

/-- Witness for the amended C3 at a concrete listing. -/
theorem locate_artifact_spec_w :
    locateArtifact [("other.txt", 3), ("temp_x.mp4", 7)] "temp_x" =
      Except.ok ("temp_x.mp4", 7) ∧
    locateArtifactP0 [("other.txt", 3), ("temp_x.mp4", 7)] "temp_x" =
      Except.ok ("temp_x.mp4", 7) := by
  have h := (locate_artifact_spec [("other.txt", 3), ("temp_x.mp4", 7)] "temp_x").2
    ("temp_x.mp4", 7) (by decide)
  exact ⟨h.1, h.2.trans (if_neg (by decide))⟩

/-- Claim C5: when the request disables the extraction tool, or the probe
reports it absent, the orchestrator never invokes the extraction path (no
info probe, no download invocation, no image extraction) and proceeds to
the direct HTTP fetch. -/
theorem skip_extraction_when_unavailable (req : Request) (env : Env)
    (hu : urlFalsy req.url = false)
    (h : req.useYtDlp = false ∨ env.ytDlpInstalled = false) :
    Event.execInfo ∉ (fetchMedia req env).2 ∧
    Event.execDownload ∉ (fetchMedia req env).2 ∧
    Event.execImages ∉ (fetchMedia req env).2 ∧
    Event.httpFetch ∈ (fetchMedia req env).2 := by
  have htrace : (fetchMedia req env).2 =
      (if req.useYtDlp then [Event.probeYtDlp] else []) ++ [Event.httpFetch] := by
    unfold fetchMedia
    rcases h with h | h
    · simp [hu, ytDlpPhase, h, directPhase_trace]
    · cases hyd : req.useYtDlp with
      | false => simp [hu, ytDlpPhase, hyd, directPhase_trace]
      | true => simp [hu, ytDlpPhase, hyd, h, directPhase_trace]
  rw [htrace]
  cases hyd : req.useYtDlp <;> simp

/-- Witness for C5: extraction disabled by the request. -/
theorem skip_extraction_when_unavailable_w :
    Event.execInfo ∉ (fetchMedia { url := some "https://a.example/v", useYtDlp := false } baseEnv).2 ∧
    Event.execDownload ∉ (fetchMedia { url := some "https://a.example/v", useYtDlp := false } baseEnv).2 ∧
    Event.execImages ∉ (fetchMedia { url := some "https://a.example/v", useYtDlp := false } baseEnv).2 ∧
    Event.httpFetch ∈ (fetchMedia { url := some "https://a.example/v", useYtDlp := false } baseEnv).2 :=
  skip_extraction_when_unavailable _ _ rfl (Or.inl rfl)

/-- Claim C10: in the direct-fetch path the file extension is chosen by
substring match on the lowercased content-type while the reported media
type is chosen by prefix match on the original header, so any non-null
content-type that contains "video" without starting with "video" (and
without the three specific video patterns checked earlier) produces a
response whose file extension is ".mp4" but whose mediaType is "image". -/
theorem direct_ext_type_mismatch (t : String) (len : Nat)
    (hv : includesStr (toLowerStr t) "video" = true)
    (h1 : includesStr (toLowerStr t) "video/mp4" = false)
    (h2 : includesStr (toLowerStr t) "video/quicktime" = false)
    (h3 : includesStr (toLowerStr t) "video/webm" = false)
    (hs : startsWithStr t "video" = false)
    (hlen : len ≠ 0) :
    (directPhase none (some t) len).1 =
      Except.ok { message := "Media downloaded successfully"
                  mediaType := "image"
                  size := len
                  method := "direct"
                  ext := ".mp4" } := by
  have hz : (len == 0) = false := by simp [hlen]
  unfold directPhase
  simp only [hz, Bool.false_eq_true, if_false]
  unfold directMediaType getExtensionFromContentType
  simp [hs, hv, h1, h2, h3]

/-- Witness for C10 at a concrete content-type. -/
theorem direct_ext_type_mismatch_w :
    (directPhase none (some "application/x-video") 5).1 =
      Except.ok { message := "Media downloaded successfully"
                  mediaType := "image"
                  size := 5
                  method := "direct"
                  ext := ".mp4" } :=
  direct_ext_type_mismatch "application/x-video" 5
    (by decide) (by decide) (by decide) (by decide) (by decide) (by decide)

lemma directPhase_error_code (a : Option (Nat × String)) (b : Option String)
    (c : Nat) (e : AppError)
    (h : (directPhase a b c).1 = Except.error e) : e.statusCode = 502 := by
  unfold directPhase at h
  cases a with
  | some st =>
    simp only [Except.error.injEq] at h
    rw [← h]
    rfl
  | none =>
    by_cases hc : (c == 0) = true
    · simp only [hc, if_true, Except.error.injEq] at h
      rw [← h]
      rfl
    · simp only [hc, Bool.false_eq_true, if_false] at h
      cases h

lemma fetchMedia_error_code (req : Request) (env : Env) (e : AppError)
    (hu : urlFalsy req.url = false)
    (h : (fetchMedia req env).1 = Except.error e) : e.statusCode = 502 := by
  unfold fetchMedia at h
  simp only [hu, Bool.false_eq_true, if_false] at h
  cases hyt : (ytDlpPhase req env).1 with
  | some resp => rw [hyt] at h; cases h
  | none =>
    rw [hyt] at h
    exact directPhase_error_code _ _ _ _ h

/-- Counterexample for C4: at a concrete rate-limit diagnostic, the
canonical info-probe classifier yields status 400 (not 429); the
`part_000` revision's stderr inspection of a rate-limit diagnostic also
ends at status 400; and the final failure response of a request whose
extraction failed with a rate-limit message carries 502, never 429. -/
theorem rate_limited_status_cex :
    (classifyInfoError "ERROR: rate-limit reached, try again later").statusCode = 400 ∧
    getMediaInfoP0Failure "WARNING: rate-limit exceeded for this client" =
      some { message := "Failed to extract media info: Rate limit reached. Please wait before trying again."
             statusCode := 400 } ∧
    (fetchMedia { url := some "https://x.com/p/1" }
        { baseEnv with
            infoError := some "ERROR: rate-limit reached, try again later"
            fetchError := some (403, "Forbidden") }).1 =
      Except.error
        { message := "Failed to download media. Both yt-dlp and direct download methods failed. Failed to download: 403 Forbidden"
          statusCode := 502 } := by decide

/-- Claim C4 amended: no rate-limit classification exists in the canonical
controller — every extraction-info failure other than the no-video case is
wrapped with status 400; only the `part_000` revision maps a download
stderr that mentions "bot" to status 429; and since every extraction
failure triggers fallback, the final failure response of any request that
passes URL validation carries status 502, never 429. -/
theorem rate_limited_classification (raw stderr : String) (req : Request)
    (env : Env) (e : AppError)
    (hraw : includesStr raw "No video could be found" = false)
    (hbot : includesStr stderr "bot" = true)
    (hu : urlFalsy req.url = false)
    (herr : (fetchMedia req env).1 = Except.error e) :
    (classifyInfoError raw).statusCode = 400 ∧
    (classifyDownloadErrorP0 raw (some stderr)).statusCode = 429 ∧
    e.statusCode = 502 := by
  refine ⟨?_, ?_, fetchMedia_error_code _ _ _ hu herr⟩
  · unfold classifyInfoError
    rw [if_neg (by simp [hraw])]
  · unfold classifyDownloadErrorP0
    rw [if_neg (by simp [hraw])]
    simp [hbot]

/-- Witness for the amended C4 at concrete diagnostics and a concrete
failing request. -/
theorem rate_limited_classification_w :
    (classifyInfoError "ERROR: rate-limit hit").statusCode = 400 ∧
    (classifyDownloadErrorP0 "ERROR: download failed"
        (some "ERROR: bot check triggered")).statusCode = 429 ∧
    (finalWrap "Failed to download: 500 Server Error").statusCode = 502 :=
  rate_limited_classification "ERROR: rate-limit hit" "ERROR: bot check triggered"
    { url := some "https://a.example/v", useYtDlp := false }
    { baseEnv with fetchError := some (500, "Server Error") }
    (finalWrap "Failed to download: 500 Server Error")
    (by decide) (by decide) rfl (by decide)

/-- Claim C9: on a successful extraction, the reported media kind is
"video" exactly when the final artifact's extension, lowercased, is one of
mp4, mov, webm, avi, mkv, and "image" for every other extension. -/
theorem extraction_media_kind (req : Request) (env : Env)
    (r : String × Option String)
    (hu : urlFalsy req.url = false) (hy : req.useYtDlp = true)
    (hi : env.ytDlpInstalled = true)
    (hok : (dlAttempt env).1 = Except.ok r) :
    ∃ resp, (fetchMedia req env).1 = Except.ok resp ∧
      resp.method = "yt-dlp" ∧
      (resp.mediaType = "video" ↔
        toLowerStr ((pathExtname r.1).drop 1) ∈
          (["mp4", "mov", "webm", "avi", "mkv"] : List String)) ∧
      (resp.mediaType = "image" ↔
        toLowerStr ((pathExtname r.1).drop 1) ∉
          (["mp4", "mov", "webm", "avi", "mkv"] : List String)) := by
  refine ⟨{ message := "Media downloaded successfully"
            mediaType := mediaTypeFromExtname (pathExtname r.1)
            size := env.fileSize
            method := "yt-dlp"
            ext := pathExtname r.1 }, ?_, rfl, ?_⟩
  · unfold fetchMedia ytDlpPhase
    simp [hu, hy, hi, hok]
  · unfold mediaTypeFromExtname videoExts
    by_cases h : toLowerStr ((pathExtname r.1).drop 1) ∈
        (["mp4", "mov", "webm", "avi", "mkv"] : List String)
    · simp [h]
    · simp [h]

/-- Witness for C9: a successful extraction landing on an mp4 artifact. -/
theorem extraction_media_kind_w :
    ∃ resp, (fetchMedia { url := some "https://a.example/v" } baseEnv).1 =
        Except.ok resp ∧
      resp.method = "yt-dlp" ∧
      (resp.mediaType = "video" ↔
        toLowerStr ((pathExtname ("/srv/app/public/media/temp_aa.mp4", some "mp4").1).drop 1) ∈
          (["mp4", "mov", "webm", "avi", "mkv"] : List String)) ∧
      (resp.mediaType = "image" ↔
        toLowerStr ((pathExtname ("/srv/app/public/media/temp_aa.mp4", some "mp4").1).drop 1) ∉
          (["mp4", "mov", "webm", "avi", "mkv"] : List String)) :=
  extraction_media_kind { url := some "https://a.example/v" } baseEnv
    ("/srv/app/public/media/temp_aa.mp4", some "mp4")
    rfl rfl rfl (by decide)

lemma fallback_trace_of_error (req : Request) (env : Env) (e : AppError)
    (hu : urlFalsy req.url = false) (hy : req.useYtDlp = true)
    (hi : env.ytDlpInstalled = true)
    (hdl : (dlAttempt env).1 = Except.error e)
    (hmsg : includesStr e.message "only images" = true) :
    (fetchMedia req env).2 =
      (Event.probeYtDlp :: (dlAttempt env).2) ++ Event.execImages ::
        (match imagesAttempt env with
         | Except.ok _ => []
         | Except.error _ => [Event.httpFetch]) := by
  unfold fetchMedia ytDlpPhase
  cases himg : imagesAttempt env with
  | ok found => simp [hu, hy, hi, hdl, hmsg, himg]
  | error e2 => simp [hu, hy, hi, hdl, hmsg, himg, directPhase_trace]

/-- Claim C1: when the extraction attempt fails with the no-video-in-post
classification, the orchestrator attempts the image fallback before the
direct HTTP fetch: the trace places the image-extraction invocation after
the extraction events and the direct fetch happens exactly when the image
fallback itself fails, never before the image fallback. -/
theorem no_video_image_fallback (req : Request) (env : Env)
    (hu : urlFalsy req.url = false) (hy : req.useYtDlp = true)
    (hi : env.ytDlpInstalled = true)
    (hnv : (∃ raw, env.infoError = some raw ∧
              includesStr raw "No video could be found" = true) ∨
           (env.infoError = none ∧ ∃ raw, env.downloadError = some raw ∧
              includesStr raw "No video could be found" = true)) :
    ∃ pre, (fetchMedia req env).2 =
        pre ++ Event.execImages ::
          (match imagesAttempt env with
           | Except.ok _ => []
           | Except.error _ => [Event.httpFetch]) ∧
      Event.httpFetch ∉ pre ∧ Event.execImages ∉ pre := by
  obtain ⟨e, hdl, hmsg⟩ : ∃ e, (dlAttempt env).1 = Except.error e ∧
      includesStr e.message "only images" = true := by
    rcases hnv with ⟨raw, hraw, hinc⟩ | ⟨hnone, raw, hraw, hinc⟩
    · refine ⟨classifyDownloadError (classifyInfoError raw).message, ?_, ?_⟩
      · unfold dlAttempt
        rw [hraw]
      · have h1 : classifyInfoError raw =
            { message := "This post contains only images. Please use the image download endpoint or specify you want images."
              statusCode := 400 } := by
          unfold classifyInfoError
          rw [if_pos hinc]
        rw [h1]
        decide
    · refine ⟨classifyDownloadError raw, ?_, ?_⟩
      · unfold dlAttempt
        rw [hnone, hraw]
      · unfold classifyDownloadError
        rw [if_pos hinc]
        decide
  refine ⟨Event.probeYtDlp :: (dlAttempt env).2,
    fallback_trace_of_error req env e hu hy hi hdl hmsg, ?_, ?_⟩
  · simp only [List.mem_cons, not_or]
    exact ⟨by decide, (dlAttempt_trace_events env).1⟩
  · simp only [List.mem_cons, not_or]
    exact ⟨by decide, (dlAttempt_trace_events env).2⟩

/-- Witness for C1: a request whose info probe reports no video in the
post; the image fallback succeeds, so no direct fetch occurs. -/
theorem no_video_image_fallback_w :
    ∃ pre, (fetchMedia { url := some "https://x.com/p/1" }
        { baseEnv with infoError := some "ERROR: No video could be found in this tweet" }).2 =
        pre ++ Event.execImages ::
          (match imagesAttempt
              { baseEnv with infoError := some "ERROR: No video could be found in this tweet" } with
           | Except.ok _ => []
           | Except.error _ => [Event.httpFetch]) ∧
      Event.httpFetch ∉ pre ∧ Event.execImages ∉ pre :=
  no_video_image_fallback
    { url := some "https://x.com/p/1" }
    { baseEnv with infoError := some "ERROR: No video could be found in this tweet" }
    rfl rfl rfl
    (Or.inl ⟨"ERROR: No video could be found in this tweet", rfl, by decide⟩)

end MediaDL
